import Mathlib

/-
Verification of the supervisor routing core of the shopping-assistant
multi-agent system. The TypeScript sources embedded here are
src/agents/supervisor.ts (supervisor routing, specialist node adapters),
src/agents/supervisor/state.ts (per-field state reducers),
src/agents/supervisor/message-utils.ts, src/agents/supervisor/product-utils.ts,
src/agents/supervisor/workflow-detection.ts, src/agents/notificationAgent.ts
and src/agents/planner.ts (plan validation and failure fallbacks).

External collaborators (the LLM oracles, the specialist agent graphs, the
built-in JSON parser and the wall clock) are modelled as explicit input
parameters of the embedded functions: each function receives the value the
collaborator produced and the embedding reproduces, branch by branch, what
the TypeScript does with that value.
-/

namespace Shop

/-- JavaScript substring test: "s.includes(pat)". True for the empty pattern,
matching the JavaScript behaviour. -/
def strContains (s pat : String) : Bool :=
  (List.range (s.data.length + 1)).any fun i => pat.data.isPrefixOf (s.data.drop i)

/-- JavaScript "str.toLowerCase()" (ASCII-faithful), computed on the
character list so the kernel can evaluate it. -/
def lowerStr (s : String) : String := String.mk (s.data.map Char.toLower)

/-- JavaScript "str.trim()", computed on the character list. -/
def strTrim (s : String) : String :=
  String.mk (((s.data.dropWhile Char.isWhitespace).reverse.dropWhile Char.isWhitespace).reverse)

/-- JavaScript "str.slice(0, n)", computed on the character list. -/
def strTake (s : String) (n : Nat) : String := String.mk (s.data.take n)

/-- Split a character list at every separator, keeping empty pieces, as
String.split does. -/
def splitChars (p : Char → Bool) : List Char → List (List Char)
  | [] => [[]]
  | c :: rest =>
    let r := splitChars p rest
    if p c then [] :: r
    else
      match r with
      | h :: t => (c :: h) :: t
      | [] => [[c]]

/-- JavaScript "str.trim().split(/\s+/)": tokens of the trimmed string.
On an all-whitespace input JavaScript yields a single empty token. -/
def splitWs (s : String) : List String :=
  let t := strTrim s
  if t = "" then [""]
  else ((splitChars Char.isWhitespace t.data).map String.mk).filter (fun w => w ≠ "")

/-- JavaScript "a || b" on an optional string (none and "" are falsy). -/
def jsOrStr (o : Option String) (d : String) : String :=
  match o with
  | some s => if s = "" then d else s
  | none => d

/-- JavaScript "a || null" on an optional string ("" collapses to null). -/
def jsOrNull (o : Option String) : Option String :=
  match o with
  | some s => if s = "" then none else some s
  | none => none

/-- The LangGraph terminal sentinel END. -/
def ENDtok : String := "__end__"

/-- Progress annotation of a streaming message (supervisor/types.ts). -/
structure Progress where
  isProgressUpdate : Bool
  step : String
  agent : String
  ephemeral : Bool
  autoRemoveMs : Option Nat := none
deriving Repr, DecidableEq

/-- AnnotatedMessage (supervisor/types.ts): a chat message wrapped with
role, originating agent and progress metadata. The underlying LangChain
message is represented by its text content. -/
structure Msg where
  content : String
  role : String
  agent : Option String := none
  senderId : Option String := none
  timestamp : Nat := 0
  progress : Option Progress := none
deriving Repr, DecidableEq

/-- The ephemeral test used by the messages reducer:
"msg.progress?.isProgressUpdate && msg.progress?.ephemeral === true". -/
def isEphemeral (m : Msg) : Bool :=
  match m.progress with
  | some p => p.isProgressUpdate && p.ephemeral
  | none => false

/-- JavaScript "arr.slice(-n)": the last n elements (all of them if fewer). -/
def takeLast (n : Nat) (l : List α) : List α := l.drop (l.length - n)

/-- The messages reducer of SupervisorState (state.ts): concatenate old and
new, split into ephemeral and permanent, keep the last 5 ephemeral and the
last 10 permanent, and output permanent first, ephemeral last. -/
def messagesReducer (x y : List Msg) : List Msg :=
  let combined := x ++ y
  let ephemeral := combined.filter (fun m => isEphemeral m)
  let permanent := combined.filter (fun m => !(isEphemeral m))
  let recentEphemeral := takeLast 5 ephemeral
  let recentPermanent := takeLast 10 permanent
  recentPermanent ++ recentEphemeral

/-- A three-valued JavaScript field update: absent (undefined), explicit
null, or a value. The SupervisorState reducers distinguish all three. -/
inductive JsVal (α : Type) where
  | undef : JsVal α
  | null : JsVal α
  | val : α → JsVal α
deriving Repr, DecidableEq

/-- Lift an optional value into a field update: a present value is sent as
the value, an absent one as undefined. This is how the node adapters pass a
destructured state field straight back into the returned fragment. -/
def jsOf : Option α → JsVal α
  | none => JsVal.undef
  | some a => JsVal.val a

/-- Abstract cart payload: the routing layer never inspects its contents,
only its presence (a JavaScript object is always truthy). -/
structure CartData where
  raw : String
deriving Repr, DecidableEq

/-- pendingProduct payload (supervisor/types.ts ProductInfo). -/
structure ProductInfo where
  product : String
  quantity : Option Nat := none
deriving Repr, DecidableEq

/-- dealData payload (supervisor/types.ts DealData). Fields are optional,
mirroring the dynamically-shaped JavaScript object; none means the key is
absent. -/
structure DealData where
  applied : Option Bool := none
  pending : Option Bool := none
  type : Option String := none
  includesCheckout : Option Bool := none
  workflowType : Option String := none
  response : Option String := none
  originalIntent : Option String := none
  history : List String := []
deriving Repr, DecidableEq

/-- notificationData payload built on checkout success
(supervisor/types.ts NotificationData). -/
structure NotificationData where
  userId : String
  conversationId : String
  summary : String
  cartData : Option CartData := none
  orderId : Option String := none
  total : Option ℚ := none
  timestamp : Nat
deriving Repr, DecidableEq

/-- A planner recommendation (the normalized PlanRecommendation record).
confidence 0 is falsy in the JavaScript truthiness tests. -/
structure Plan where
  action : String := "delegate"
  targetAgent : Option String := none
  task : Option String := none
  confidence : ℚ := 0
  reasoning : String := ""
  autoApplyIntent : Bool := false
deriving Repr, DecidableEq

/-- Result of the continuation-intent oracle
(supervisor/types.ts ContinuationAnalysis). -/
structure ContinuationAnalysis where
  isContinuation : Bool := false
  continuationType : Option String := none
  targetAgent : Option String := none
  confidence : ℚ := 0
  reasoning : String := ""
deriving Repr, DecidableEq

/-- The merged conversation state (SupervisorState channels, state.ts). -/
structure SupState where
  messages : List Msg := []
  next : String := ""
  userId : String := ""
  conversationId : String := ""
  cartData : Option CartData := none
  workflowContext : Option String := none
  dealData : Option DealData := none
  delegationDepth : Int := 0
  pendingProduct : Option ProductInfo := none
  notificationData : Option NotificationData := none
  plannerRecommendation : Option Plan := none
deriving Repr, DecidableEq

/-- A state fragment returned by one node: the piecewise update handed to the
reducers. A field left at its default (undefined) was absent from the
returned object literal. -/
structure Fragment where
  messages : List Msg := []
  next : Option String := none
  userId : Option String := none
  conversationId : Option String := none
  workflowContext : JsVal String := JsVal.undef
  dealData : JsVal DealData := JsVal.undef
  pendingProduct : JsVal ProductInfo := JsVal.undef
  cartData : JsVal CartData := JsVal.undef
  notificationData : JsVal NotificationData := JsVal.undef
  plannerRecommendation : JsVal Plan := JsVal.undef
  delegationDepth : JsVal Int := JsVal.undef
deriving Repr, DecidableEq

/-- JavaScript falsiness of an optional string (none, null and "" are
falsy; both absent cases are collapsed into none here). -/
def jsFalsyStr (o : Option String) : Bool :=
  match o with
  | none => true
  | some s => s = ""

/-- The next reducer (state.ts): "(x, y) => y ?? x ?? END". -/
def nextReducer (x y : Option String) : String :=
  ((y <|> x).getD ENDtok)

/-- The userId reducer (state.ts): default user when both old and new are
falsy, otherwise "y ?? x". -/
def userIdReducer (x y : Option String) : Option String :=
  if jsFalsyStr y && jsFalsyStr x then some "default-user" else (y <|> x)

/-- The conversationId reducer (state.ts): a generated
"conv-(Date.now())" id when both are falsy, otherwise "y ?? x". The wall
clock is passed in explicitly. -/
def conversationIdReducer (now : Nat) (x y : Option String) : Option String :=
  if jsFalsyStr y && jsFalsyStr x then some ("conv-" ++ toString now) else (y <|> x)

/-- The cartData reducer (state.ts): explicit null clears, absent keeps the
old value, first write wins when no old value, otherwise object spread of
the new over the old (which, for the single-field payload here, is the
new value). -/
def cartDataReducer (x : Option CartData) (y : JsVal CartData) : Option CartData :=
  match y with
  | JsVal.null => none
  | JsVal.undef => x
  | JsVal.val d =>
    match x with
    | none => some d
    | some _ => some d

/-- The valid workflowContext values accepted by the reducer (state.ts). -/
def validContexts : List String :=
  ["awaiting_deal_confirmation", "add_to_cart_with_deals", "add_to_cart_with_checkout",
   "check_deals", "prepare_checkout", "process_checkout", "send_notification"]

/-- The workflowContext reducer (state.ts): a truthy unrecognized value is
rejected (old kept); otherwise "y ?? x", so null and undefined both keep
the old value and an empty string (falsy, so unvalidated) wins. -/
def workflowContextReducer (x : Option String) (y : JsVal String) : Option String :=
  match y with
  | JsVal.undef => x
  | JsVal.null => x
  | JsVal.val s =>
    if s ≠ "" && !(validContexts.contains s) then x else some s

/-- Object spread "(...x, ...y)" for deal data, with concatenated
history arrays as in the dealData reducer. -/
def spreadDeal (x y : DealData) : DealData :=
  { applied := y.applied <|> x.applied
    pending := y.pending <|> x.pending
    type := y.type <|> x.type
    includesCheckout := y.includesCheckout <|> x.includesCheckout
    workflowType := y.workflowType <|> x.workflowType
    response := y.response <|> x.response
    originalIntent := y.originalIntent <|> x.originalIntent
    history := x.history ++ y.history }

/-- The dealData reducer (state.ts): explicit null clears, absent keeps the
old value, otherwise spread-merge preserving history. -/
def dealDataReducer (x : Option DealData) (y : JsVal DealData) : Option DealData :=
  match y with
  | JsVal.null => none
  | JsVal.undef => x
  | JsVal.val d =>
    match x with
    | none => some d
    | some xd => some (spreadDeal xd d)

/-- The delegationDepth reducer (state.ts): explicit null resets to 0,
absent keeps the previous depth, and the result is clamped to [0, 100]. -/
def delegationDepthReducer (x : Option Int) (y : JsVal Int) : Int :=
  match y with
  | JsVal.null => 0
  | JsVal.undef => max 0 (min (x.getD 0) 100)
  | JsVal.val n => max 0 (min n 100)

/-- The pendingProduct reducer (state.ts): explicit null clears, absent
keeps the old value, a new object with a falsy product key is rejected
(old kept), otherwise new wins. -/
def pendingProductReducer (x : Option ProductInfo) (y : JsVal ProductInfo) : Option ProductInfo :=
  match y with
  | JsVal.null => none
  | JsVal.undef => x
  | JsVal.val p => if p.product = "" then x else some p

/-- The notificationData reducer (state.ts): explicit null clears, absent
keeps the old value, otherwise spread-merge (all keys of the new record are
present, so the new record wins). -/
def notificationDataReducer (x : Option NotificationData) (y : JsVal NotificationData) :
    Option NotificationData :=
  match y with
  | JsVal.null => none
  | JsVal.undef => x
  | JsVal.val d =>
    match x with
    | none => some d
    | some _ => some d

/-- The plannerRecommendation reducer (state.ts): explicit null clears,
absent keeps the old value, otherwise the latest recommendation wins. -/
def plannerRecommendationReducer (x : Option Plan) (y : JsVal Plan) : Option Plan :=
  match y with
  | JsVal.null => none
  | JsVal.undef => x
  | JsVal.val p => some p

/-- One reducer-merge step of the Graph Runner: every channel of the state
merged with the corresponding fragment field by its reducer (state.ts). -/
def applyFragment (now : Nat) (st : SupState) (f : Fragment) : SupState :=
  { messages := messagesReducer st.messages f.messages
    next := nextReducer (some st.next) f.next
    userId := (userIdReducer (some st.userId) f.userId).getD ""
    conversationId := (conversationIdReducer now (some st.conversationId) f.conversationId).getD ""
    cartData := cartDataReducer st.cartData f.cartData
    workflowContext := workflowContextReducer st.workflowContext f.workflowContext
    dealData := dealDataReducer st.dealData f.dealData
    delegationDepth := delegationDepthReducer (some st.delegationDepth) f.delegationDepth
    pendingProduct := pendingProductReducer st.pendingProduct f.pendingProduct
    notificationData := notificationDataReducer st.notificationData f.notificationData
    plannerRecommendation := plannerRecommendationReducer st.plannerRecommendation f.plannerRecommendation }

/-- createProgressMessage (message-utils.ts): an ephemeral
progress-annotated assistant message with a 5 second auto-dismiss hint. -/
def createProgressMessage (content : String) (agent : String) (now : Nat) : Msg :=
  { content := content, role := "assistant", agent := some agent, timestamp := now
    progress := some { isProgressUpdate := true, step := content, agent := agent,
                       ephemeral := true, autoRemoveMs := some 5000 } }

/-- annotateMessage (message-utils.ts): wrap a raw message with role,
agent and timestamp. -/
def annotateMsg (content role : String) (agent : Option String) (now : Nat) : Msg :=
  { content := content, role := role, agent := agent, timestamp := now }

/-- getAgentProgressMessage (message-utils.ts): the agent-specific routing
progress text, always attributed to the supervisor. -/
def getAgentProgressMessage (agentName : String) (context : Option String) (now : Nat) : Msg :=
  let message :=
    if agentName = "catalog" then "🛍️ Searching our catalog..."
    else if agentName = "deals" then "🏷️ Checking for deals..."
    else if agentName = "cart_and_checkout" then
      (if context = some "process_checkout" ∨ context = some "prepare_checkout" then
        "💳 Processing checkout..."
      else "🛒 Managing your cart...")
    else if agentName = "payment" then "💳 Managing payments..."
    else if agentName = "notification_agent" then "📧 Sending notifications..."
    else "⏳ Delegating to " ++ agentName ++ "..."
  createProgressMessage message "supervisor" now

/-- The outcome of one complex-workflow detection
(workflow-detection.ts WorkflowDetectionResult). -/
structure WorkflowDetectionResult where
  isComplex : Bool
  workflowType : Option String := none
  reason : Option String := none
  includesCheckout : Bool := false
deriving Repr, DecidableEq

/-- detectComplexWorkflow (workflow-detection.ts): pure keyword classifier
for multi-step intent over the lowercased message. -/
def detectComplexWorkflow (messageContent : String) : WorkflowDetectionResult :=
  let lc := lowerStr messageContent
  let hasCheckout :=
    strContains lc "checkout" || strContains lc "check out" ||
    strContains lc "place order" || strContains lc "complete order" ||
    (strContains lc "then" && (strContains lc "continue" || strContains lc "proceed")) ||
    (strContains lc "just" && strContains lc "continue")
  let dealsAndCartPattern :=
    (strContains lc "check" || strContains lc "find" || strContains lc "look") &&
    (strContains lc "deal" || strContains lc "promotion" || strContains lc "discount" ||
      strContains lc "sale") &&
    (strContains lc "add" && strContains lc "cart")
  let conditionalPattern :=
    strContains lc "if" &&
    (strContains lc "deal" || strContains lc "discount" || strContains lc "sale" ||
      strContains lc "promotion") &&
    (strContains lc "add" || strContains lc "buy" || strContains lc "purchase")
  let multiActionPattern :=
    strContains lc " and " &&
    ((strContains lc "deal" || strContains lc "promotion" || strContains lc "discount") &&
      (strContains lc "add" || strContains lc "cart"))
  if dealsAndCartPattern then
    { isComplex := true
      workflowType := some (if hasCheckout then "deals_to_cart_to_checkout" else "deals_to_cart")
      reason := some (if hasCheckout then
          "User wants to check deals, add to cart, and proceed to checkout automatically"
        else "User wants to check deals first, then add to cart based on availability")
      includesCheckout := hasCheckout }
  else if conditionalPattern then
    { isComplex := true
      workflowType := some (if hasCheckout then "conditional_purchase_with_checkout" else "conditional_purchase")
      reason := some (if hasCheckout then
          "User wants conditional action based on deal availability with automatic checkout"
        else "User wants conditional action based on deal availability")
      includesCheckout := hasCheckout }
  else if multiActionPattern then
    { isComplex := true
      workflowType := some (if hasCheckout then "multi_step_purchase_with_checkout" else "multi_step_purchase")
      reason := some (if hasCheckout then
          "User wants multiple coordinated actions (deals check + cart addition + checkout)"
        else "User wants multiple coordinated actions (deals check + cart addition)")
      includesCheckout := hasCheckout }
  else { isComplex := false, includesCheckout := false }

/-- The affirmative token list of the deal-confirmation early check
(supervisor.ts, supervisor function). -/
def affirmativePatterns : List String :=
  ["yes", "sure", "ok", "okay", "apply", "take",
   "sounds", "great", "perfect", "good", "deal", "go"]

/-- The affirmative test of the deal-confirmation early check: some
whitespace token of the lowercased trimmed message mutually
substring-matches some affirmative pattern. -/
def hasAffirmative (messageContent : String) : Bool :=
  let messageWords := splitWs (lowerStr messageContent)
  affirmativePatterns.any fun pattern =>
    messageWords.any fun word => strContains word pattern || strContains pattern word

/-- Modelled from the spec: the constants module (src/agents/constants,
defining MIN_CONTINUATION_CONFIDENCE) is not present under src; the spec
fixes the continuation-confidence threshold as "configurable, default >
0.7", matching the 0.7 fallback in llm-utils.ts. -/
def MIN_CONTINUATION_CONFIDENCE : ℚ := 7/10

/-- The valid delegation targets checked against a planner recommendation
(supervisor.ts, planner-recommendation handling). -/
def validAgentsPlanner : List String :=
  ["catalog", "cart_and_checkout", "deals", "payment", "notification_agent"]

/-- The valid answers of the general LLM fallback routing
(supervisor.ts). -/
def validAgentsFallback : List String :=
  ["catalog", "cart_and_checkout", "payment", "deals"]

/-- The agent-completion framing text chosen by the supervisor from the
last message agent, the deal data and the workflow context. -/
def completionMessageText (agent : String) (dealData : Option DealData)
    (workflowContext : Option String) : String :=
  if agent = "deals" then
    match dealData with
    | some d =>
      if d.applied = some true then "🏷️ Found deals, proceeding..."
      else if d.pending = some true then "🏷️ Found deals, awaiting confirmation..."
      else "🏷️ Deal search completed..."
    | none => "🏷️ Deal search completed..."
  else if agent = "cart_and_checkout" then
    if workflowContext = some "process_checkout" ∨ workflowContext = some "prepare_checkout" then
      "💳 Checkout completed..."
    else "🛒 Added items to cart..."
  else if agent = "catalog" then "🛍️ Catalog search completed..."
  else if agent = "payment" then "💳 Payment processing completed..."
  else if agent = "notification_agent" then "📧 Notifications sent..."
  else "✅ Agent task completed..."

/-- The supervisor routing engine (supervisor.ts, supervisor function).
The two oracle calls it may make are passed in as parameters: cont is the
continuation-intent analysis, fallbackAnswer the one-word reply of the
general routing prompt, extractedOracle the product-extraction result, and
now the wall clock. The priority cascade of early returns is translated
into nested phases, each phase an Option Fragment that is none exactly
when the source falls through to the next rule. -/
def supervisorRoute (st : SupState) (cont : ContinuationAnalysis)
    (fallbackAnswer : String) (extractedOracle : Option ProductInfo) (now : Nat) : Fragment :=
  let lastMessage := st.messages.getLast?
  let isAgentCompletion :=
    match lastMessage with
    | some m =>
      match m.agent with
      | some a => a ≠ "" && a ≠ "supervisor" && a ≠ "user"
      | none => false
    | none => false
  let lastAgent := (lastMessage.bind (fun m => m.agent)).getD ""
  let initialMessages :=
    if isAgentCompletion then
      [createProgressMessage (completionMessageText lastAgent st.dealData st.workflowContext)
        "supervisor" now,
       createProgressMessage "🔄 Evaluating next steps..." "supervisor" (now + 1)]
    else [createProgressMessage "🧠 Evaluating request..." "supervisor" now]
  let off := if isAgentCompletion then 2 else 1
  let lastAnnotated := lastMessage
  let messageContent := match lastAnnotated with | some m => m.content | none => ""
  -- Rule: post-checkout notification handoff on send_notification context
  if st.workflowContext = some "send_notification" then
    let orderId := jsOrStr (st.notificationData.bind (fun n => n.orderId)) "N/A"
    let annotatedCheckoutMessage :=
      annotateMsg ("✅ Checkout completed successfully! Your order ID is: " ++ orderId)
        "assistant" (some "supervisor") (now + off)
    let notificationProgressMessage :=
      getAgentProgressMessage "notification_agent" (some "send_notification") (now + off + 1)
    { next := some "notification_agent", userId := some st.userId,
      conversationId := some st.conversationId,
      workflowContext := JsVal.val "send_notification",
      plannerRecommendation := jsOf st.plannerRecommendation,
      messages := initialMessages ++ [annotatedCheckoutMessage, notificationProgressMessage] ++
        lastAnnotated.toList }
  -- Rule: deal-confirmation early check
  else if st.workflowContext = some "awaiting_deal_confirmation" ∧ st.pendingProduct.isSome then
    if hasAffirmative messageContent then
      let cartProgressMessage :=
        getAgentProgressMessage "cart_and_checkout" (some "add_to_cart_with_deals") (now + off)
      { next := some "cart_and_checkout", userId := some st.userId,
        conversationId := some st.conversationId,
        workflowContext := JsVal.val "add_to_cart_with_deals",
        dealData := jsOf st.dealData, pendingProduct := jsOf st.pendingProduct,
        cartData := jsOf st.cartData,
        messages := initialMessages ++ [cartProgressMessage] ++ lastAnnotated.toList }
    else
      -- the source writes the three cleared fields as undefined, not null
      { messages := initialMessages ++
          [annotateMsg "No problem! Let me know if you\x27d like to explore other products or if there\x27s anything else I can help you with."
            "assistant" (some "supervisor") now],
        userId := some st.userId, conversationId := some st.conversationId,
        workflowContext := JsVal.undef, dealData := JsVal.undef, pendingProduct := JsVal.undef,
        cartData := jsOf st.cartData, next := some ENDtok }
  else
    let complexWorkflow := detectComplexWorkflow messageContent
    -- Rule: planner-recommendation handling
    let plannerPhase : Option Fragment :=
      match st.plannerRecommendation with
      | none => none
      | some rec =>
        if rec.action = "direct_response" then
          let responseContent :=
            jsOrStr rec.task
              (if rec.reasoning = "" then "Hello! How can I help you today?" else rec.reasoning)
          let msgs := initialMessages ++
            [annotateMsg responseContent "assistant" (some "supervisor") now]
          some
            { messages := msgs,
              userId := some st.userId, conversationId := some st.conversationId,
              workflowContext := jsOf st.workflowContext, dealData := jsOf st.dealData,
              pendingProduct := jsOf st.pendingProduct, cartData := jsOf st.cartData,
              next := some ENDtok }
        else if rec.action = "delegate" ∧ ¬ jsFalsyStr rec.targetAgent then
          let targetAgent := rec.targetAgent.getD ""
          let finalTargetAgent :=
            if st.workflowContext = some "add_to_cart_with_deals" ∧ st.pendingProduct.isSome then
              "cart_and_checkout"
            else if st.workflowContext = some "awaiting_deal_confirmation" ∧ st.pendingProduct.isSome then
              targetAgent
            else if complexWorkflow.isComplex ∧ targetAgent = "supervisor" then "deals"
            else targetAgent
          if finalTargetAgent ≠ targetAgent ∨ (rec.confidence ≠ 0 ∧ rec.confidence > 7/10) then
            let msgs := initialMessages ++
              [getAgentProgressMessage finalTargetAgent st.workflowContext (now + off)] ++
              lastAnnotated.toList
            some
              { next := some finalTargetAgent, userId := some st.userId,
                conversationId := some st.conversationId,
                workflowContext := jsOf st.workflowContext, dealData := jsOf st.dealData,
                pendingProduct := jsOf st.pendingProduct, cartData := jsOf st.cartData,
                messages := msgs }
          else none
        else none
    match plannerPhase with
    | some f => f
    | none =>
      -- Rule: continuation-intent fallback
      let contPhase : Option Fragment :=
        if cont.isContinuation ∧ cont.confidence > MIN_CONTINUATION_CONFIDENCE then
          if cont.continuationType = some "deal_confirmation" then
            let msgs := initialMessages ++
              [getAgentProgressMessage "cart_and_checkout" (some "add_to_cart_with_deals") (now + off)] ++
              lastAnnotated.toList
            some
              { next := some "cart_and_checkout", userId := some st.userId,
                conversationId := some st.conversationId,
                workflowContext := JsVal.val "add_to_cart_with_deals",
                dealData := jsOf st.dealData, pendingProduct := jsOf st.pendingProduct,
                messages := msgs }
          else if cont.continuationType = some "checkout_flow" then
            let checkoutContext :=
              if st.cartData.isSome then "process_checkout" else "prepare_checkout"
            let msgs := initialMessages ++
              [getAgentProgressMessage "cart_and_checkout" (some checkoutContext) (now + off)] ++
              lastAnnotated.toList
            some
              { next := some "cart_and_checkout", userId := some st.userId,
                conversationId := some st.conversationId,
                workflowContext := JsVal.val checkoutContext, cartData := jsOf st.cartData,
                messages := msgs }
          else if cont.continuationType = some "add_to_cart" then
            let targetAgent :=
              if st.pendingProduct.isSome then "cart_and_checkout" else "deals"
            let ctx :=
              if st.pendingProduct.isSome then "add_to_cart_with_deals" else "check_deals"
            let msgs := initialMessages ++
              [getAgentProgressMessage targetAgent (some ctx) (now + off)] ++
              lastAnnotated.toList
            some
              { next := some targetAgent, userId := some st.userId,
                conversationId := some st.conversationId,
                workflowContext := JsVal.val ctx, dealData := jsOf st.dealData,
                pendingProduct := jsOf st.pendingProduct,
                messages := msgs }
          else none
        else none
      match contPhase with
      | some f => f
      | none =>
        -- Rule: context overrides without planner
        if st.workflowContext = some "add_to_cart_with_deals" ∧ st.pendingProduct.isSome then
          let msgs := initialMessages ++
            [getAgentProgressMessage "cart_and_checkout" (some "add_to_cart_with_deals") (now + off)] ++
            lastAnnotated.toList
          { next := some "cart_and_checkout", userId := some st.userId,
            conversationId := some st.conversationId,
            workflowContext := JsVal.val "add_to_cart_with_deals",
            dealData := jsOf st.dealData, pendingProduct := jsOf st.pendingProduct,
            plannerRecommendation := jsOf st.plannerRecommendation,
            messages := msgs }
        else if st.workflowContext = some "add_to_cart_with_checkout" then
          let msgs := initialMessages ++
            [getAgentProgressMessage "cart_and_checkout" (some "process_checkout") (now + off)] ++
            lastAnnotated.toList
          { next := some "cart_and_checkout", userId := some st.userId,
            conversationId := some st.conversationId,
            workflowContext := JsVal.val "process_checkout",
            dealData := jsOf st.dealData, pendingProduct := JsVal.null,
            cartData := jsOf st.cartData,
            plannerRecommendation := jsOf st.plannerRecommendation,
            messages := msgs }
        else
          -- Rule: general LLM fallback routing
          let nextAgent := lowerStr (strTrim fallbackAnswer)
          let selectedAgent :=
            if validAgentsFallback.contains nextAgent then nextAgent else "catalog"
          let extractedProduct :=
            if (selectedAgent = "deals" ∧ st.pendingProduct.isNone) ∨ complexWorkflow.isComplex
            then extractedOracle else st.pendingProduct
          let complexDeals :=
            complexWorkflow.isComplex ∧ selectedAgent = "deals" ∧ extractedProduct.isSome
          let finalWorkflowContext :=
            if complexDeals then some "check_deals" else st.workflowContext
          let finalDealData :=
            if complexDeals ∧ complexWorkflow.includesCheckout then
              some { (st.dealData.getD {}) with
                     includesCheckout := some true,
                     workflowType := complexWorkflow.workflowType }
            else st.dealData
          let msgs := initialMessages ++
            [getAgentProgressMessage selectedAgent finalWorkflowContext (now + off)] ++
            lastAnnotated.toList
          { next := some selectedAgent, userId := some st.userId,
            conversationId := some st.conversationId,
            workflowContext := jsOf finalWorkflowContext,
            pendingProduct := jsOf (extractedProduct <|> st.pendingProduct),
            dealData := jsOf finalDealData, cartData := jsOf st.cartData,
            plannerRecommendation := jsOf st.plannerRecommendation,
            messages := msgs }

/-- The structured checkout reply schema
(supervisor/types.ts CheckoutResult). -/
structure CheckoutResult where
  checkoutStatus : Option String := none
  orderId : Option String := none
  summary : Option String := none
  items : Option CartData := none
  total : Option ℚ := none
deriving Repr, DecidableEq

/-- The product-not-recognized phrase scan of cartAndCheckoutNode. -/
def productNotRecognizedB (contentStr : String) : Bool :=
  let lc := lowerStr contentStr
  strContains lc "not recognizing the product" ||
  strContains lc "product not found" ||
  strContains lc "item not found"

/-- The free-text checkout-success heuristics of cartAndCheckoutNode. -/
def textCheckoutSuccess (contentStr : String) : Bool :=
  let lc := lowerStr contentStr
  strContains lc "checkout completed" || strContains lc "order confirmed" ||
  strContains lc "payment successful" || strContains lc "order placed"

/-- The checkout-request test of cartAndCheckoutNode: keyword scan of the
actual user message, or a checkout workflow context. -/
def isCheckoutRequest (actualUserContent : String) (workflowContext : Option String) : Bool :=
  strContains (lowerStr actualUserContent) "checkout" ||
  strContains (lowerStr actualUserContent) "buy" ||
  strContains (lowerStr actualUserContent) "purchase" ||
  workflowContext == some "process_checkout" ||
  workflowContext == some "prepare_checkout"

/-- The last user message content, falling back to the last message content
(cartAndCheckoutNode). -/
def actualUserContentOf (msgs : List Msg) (originalContent : String) : String :=
  match (msgs.filter (fun m => m.role == "user")).getLast? with
  | some m => m.content
  | none => originalContent

/-- The last message content of the state, empty when there is none
(the originalContent of cartAndCheckoutNode). -/
def cartOriginalContent (st : SupState) : String :=
  match st.messages.getLast? with
  | some m => m.content
  | none => ""

/-- The actualUserContent of cartAndCheckoutNode. -/
def cartActualUserContent (st : SupState) : String :=
  actualUserContentOf st.messages (cartOriginalContent st)

/-- The isCheckoutRequest flag of cartAndCheckoutNode computed from the
state. -/
def cartIsCheckoutReq (st : SupState) : Bool :=
  isCheckoutRequest (cartActualUserContent st) st.workflowContext

/-- The truthy structured checkout status:
"structured && structured.checkoutStatus". -/
def structuredStatusOf (structured : Option CheckoutResult) : Option String :=
  match structured with
  | some r =>
    match r.checkoutStatus with
    | some s => if s = "" then none else some s
    | none => none
  | none => none

/-- The cart-and-checkout node adapter (supervisor.ts cartAndCheckoutNode).
External inputs: resultMsgs are the reply messages of the cart agent
graph, contentStr the text of its last reply, structured the result of
safeParseJson on contentStr (the built-in JSON parser is external), now
the wall clock. The message string sent to the agent (and the context
filtering feeding it) never appears in the returned fragment and is not
modelled. -/
def cartAndCheckoutNode (st : SupState) (resultMsgs : List String)
    (contentStr : String) (structured : Option CheckoutResult) (now : Nat) : Fragment :=
  let isCheckoutReq := cartIsCheckoutReq st
  let annotatedResponses :=
    resultMsgs.map (fun c => annotateMsg c "assistant" (some "cart_and_checkout") now)
  if productNotRecognizedB contentStr ∧ st.pendingProduct.isSome then
    let pname := (st.pendingProduct.map (fun p => p.product)).getD ""
    let helpful :=
      annotateMsg ("I couldn\x27t find \"" ++ pname ++ "\" in our catalog. Let me help you find the right product. You can try searching for similar items or browse our catalog.")
        "assistant" (some "cart_and_checkout") now
    { messages := annotatedResponses ++ [helpful],
      userId := some st.userId, conversationId := some st.conversationId,
      workflowContext := JsVal.null, dealData := JsVal.null, pendingProduct := JsVal.null,
      cartData := jsOf st.cartData,
      plannerRecommendation := jsOf st.plannerRecommendation, next := some ENDtok }
  else
    -- shared continuation once no structured status decides the turn
    let restOfNode : Fragment :=
      if textCheckoutSuccess contentStr then
        let notificationPayload : NotificationData :=
          { userId := st.userId, conversationId := st.conversationId,
            summary := contentStr, cartData := st.cartData, orderId := none,
            timestamp := now }
        { messages := annotatedResponses,
          userId := some st.userId, conversationId := some st.conversationId,
          workflowContext := JsVal.val "send_notification", dealData := jsOf st.dealData,
          pendingProduct := JsVal.null, cartData := JsVal.null,
          notificationData := JsVal.val notificationPayload,
          plannerRecommendation := jsOf st.plannerRecommendation,
          next := some "supervisor" }
      else
        let shouldAutoCheckout :=
          (match st.dealData with
           | some d => d.includesCheckout == some true
           | none => false) &&
          st.workflowContext == some "add_to_cart_with_deals" && !isCheckoutReq
        if shouldAutoCheckout then
          let msgs := annotatedResponses ++
            [createProgressMessage "💳 Proceeding to checkout automatically..." "supervisor" now]
          { messages := msgs,
            userId := some st.userId, conversationId := some st.conversationId,
            workflowContext := JsVal.val "add_to_cart_with_checkout",
            dealData := JsVal.val { (st.dealData.getD {}) with includesCheckout := some false },
            pendingProduct := JsVal.null, cartData := jsOf st.cartData,
            plannerRecommendation := jsOf st.plannerRecommendation,
            next := some "supervisor" }
        else
          { messages := annotatedResponses,
            userId := some st.userId, conversationId := some st.conversationId,
            workflowContext := jsOf st.workflowContext, dealData := jsOf st.dealData,
            pendingProduct := jsOf st.pendingProduct, cartData := jsOf st.cartData,
            plannerRecommendation := jsOf st.plannerRecommendation,
            next := some ENDtok }
    match structuredStatusOf structured with
    | some s =>
      if s = "success" then
        let r := structured.getD {}
        let notificationPayload : NotificationData :=
          { userId := st.userId, conversationId := st.conversationId,
            summary := jsOrStr r.summary contentStr,
            cartData := r.items <|> st.cartData,
            orderId := jsOrNull r.orderId,
            total := (match r.total with
                      | some t => if t = 0 then none else some t
                      | none => none),
            timestamp := now }
        { messages := annotatedResponses,
          userId := some st.userId, conversationId := some st.conversationId,
          workflowContext := JsVal.val "send_notification", dealData := jsOf st.dealData,
          pendingProduct := JsVal.null, cartData := JsVal.null,
          notificationData := JsVal.val notificationPayload,
          plannerRecommendation := jsOf st.plannerRecommendation,
          next := some "supervisor" }
      else if s = "failure" then
        let r := structured.getD {}
        let failMsg :=
          annotateMsg ("Checkout failed: " ++ jsOrStr r.summary "Unknown reason")
            "assistant" (some "cart_and_checkout") now
        { messages := annotatedResponses ++ [failMsg],
          userId := some st.userId, conversationId := some st.conversationId,
          workflowContext := JsVal.null, dealData := jsOf st.dealData,
          pendingProduct := JsVal.null, cartData := jsOf st.cartData,
          plannerRecommendation := jsOf st.plannerRecommendation,
          next := some ENDtok }
      else restOfNode
    | none => restOfNode

/-- The deal-confirmation phrase scan of dealsNode. -/
def requiresConfirmationB (responseContent : String) : Bool :=
  let lc := lowerStr responseContent
  strContains lc "would you like" || strContains lc "apply this deal" ||
  strContains lc "interested in" || strContains lc "take advantage"

/-- The pre-invoke complex-workflow scan of dealsNode over the outgoing
message (three keyword patterns). -/
def dealsPreComplexB (message : String) : Bool :=
  let lc := lowerStr message
  (strContains lc "check" && strContains lc "deal" && strContains lc "add") ||
  (strContains lc "if" && strContains lc "deal") ||
  (strContains lc "deal" && strContains lc "cart")

/-- The post-invoke complex-workflow scan of dealsNode (adds the marker of
the enhanced message). -/
def dealsPostComplexB (message : String) : Bool :=
  dealsPreComplexB message || strContains (lowerStr message) "complex workflow request"

/-- The no-deals phrase scan of dealsNode. -/
def noDealsAvailableB (responseContent : String) : Bool :=
  let lc := lowerStr responseContent
  strContains lc "no current deals" || strContains lc "no deals available" ||
  strContains lc "expired" || strContains lc "unfortunately, there are no"

/-- The quantity suffix of the enhanced deals message (quantity 0 is falsy
in the JavaScript template test). -/
def qtySuffix (q : Option Nat) : String :=
  match q with
  | some n => if n = 0 then "" else " (quantity: " ++ toString n ++ ")"
  | none => ""

/-- The deals node adapter (supervisor.ts dealsNode). External inputs:
extractedOracle is the first valid product extracted from the last two
user messages (none when every attempt failed), resultMsgs the reply
messages of the deals agent graph, resultContent its result.content, now
the wall clock. The result is an Option because one branch structure of
the source reaches the end of the function without any return statement:
that path yields none. -/
def dealsNode (st : SupState) (extractedOracle : Option ProductInfo)
    (resultMsgs : List String) (resultContent : Option String) (now : Nat) : Option Fragment :=
  let messageToAgent0 := match st.messages.getLast? with | some m => m.content | none => ""
  let effectivePending :=
    match st.pendingProduct with
    | some p => some p
    | none =>
      match extractedOracle with
      | some e => if e.product ≠ "" then some e else none
      | none => none
  match effectivePending with
  | none =>
    let errorMessage :=
      annotateMsg "I need to know which product you\x27re interested in to check for deals. Could you please specify the product name? For example, \x27Check deals on apples\x27 or \x27Add 8 apples to my cart\x27."
        "assistant" (some "deals") now
    some
      { messages := [errorMessage],
        userId := some st.userId, conversationId := some st.conversationId,
        workflowContext := JsVal.null, dealData := jsOf st.dealData,
        pendingProduct := JsVal.null, cartData := jsOf st.cartData,
        plannerRecommendation := jsOf st.plannerRecommendation, next := some ENDtok }
  | some ep =>
    let messageToAgent :=
      if st.workflowContext = some "check_deals" then
        if dealsPreComplexB messageToAgent0 then
          "Complex workflow request: \"" ++ messageToAgent0 ++
          "\". User wants to check for deals on " ++ ep.product ++ qtySuffix ep.quantity ++
          " and conditionally add to cart if deals are available. Please check for deals and present options clearly."
        else
          "User wants to add to cart: \"" ++ messageToAgent0 ++
          "\". Check for deals on " ++ ep.product ++ qtySuffix ep.quantity
      else messageToAgent0
    let responseMessages :=
      resultMsgs.map (fun c => annotateMsg c "assistant" (some "deals") now)
    let responseContent := jsOrStr resultContent "No deals found"
    let autoApplyIntent :=
      match st.plannerRecommendation with
      | some p => p.autoApplyIntent
      | none => false
    let isComplexWorkflow := dealsPostComplexB messageToAgent
    let requiresConfirmation := requiresConfirmationB responseContent
    if requiresConfirmation ||
       (isComplexWorkflow &&
        !(strContains (lowerStr responseContent) "no current deals") &&
        !(strContains (lowerStr responseContent) "no deals available")) then
      if autoApplyIntent then
        let msgs := responseMessages ++
          [createProgressMessage "🛒 Adding items to your cart..." "supervisor" now]
        -- pendingProduct is "effectivePending || pendingProduct", and
        -- effectivePending is present on this path
        some
          { messages := msgs,
            workflowContext := JsVal.val "add_to_cart_with_deals",
            dealData := JsVal.val { (st.dealData.getD {}) with
              applied := some true, response := some responseContent,
              type := some "product_deal", originalIntent := some messageToAgent },
            pendingProduct := JsVal.val ep, cartData := jsOf st.cartData,
            userId := some st.userId, conversationId := some st.conversationId,
            plannerRecommendation := jsOf st.plannerRecommendation,
            next := some "supervisor" }
      else if requiresConfirmation then
        some
          { messages := responseMessages,
            workflowContext := JsVal.val "awaiting_deal_confirmation",
            dealData := JsVal.val { (st.dealData.getD {}) with
              pending := some true, response := some responseContent,
              type := some "product_deal" },
            pendingProduct := JsVal.val ep, cartData := jsOf st.cartData,
            userId := some st.userId, conversationId := some st.conversationId,
            plannerRecommendation := jsOf st.plannerRecommendation,
            next := some ENDtok }
      else
        some
          { messages := responseMessages,
            workflowContext := JsVal.val "add_to_cart_with_deals",
            dealData := JsVal.val { (st.dealData.getD {}) with
              applied := some true, response := some responseContent,
              type := some "product_deal" },
            pendingProduct := JsVal.val ep, cartData := jsOf st.cartData,
            userId := some st.userId, conversationId := some st.conversationId,
            plannerRecommendation := jsOf st.plannerRecommendation,
            next := some "cart_and_checkout" }
    else
      if noDealsAvailableB responseContent then
        some
          { messages := responseMessages,
            workflowContext := JsVal.null,
            dealData := JsVal.val { (st.dealData.getD {}) with
              applied := some false, response := some responseContent,
              type := some "no_deals_found" },
            pendingProduct := JsVal.null, cartData := jsOf st.cartData,
            userId := some st.userId, conversationId := some st.conversationId,
            plannerRecommendation := jsOf st.plannerRecommendation,
            next := some ENDtok }
      else
        -- the source function falls off its end here: no return executes
        none

/-- The catalog node adapter (supervisor.ts catalogNode): annotate the
reply messages and terminate, preserving all state. -/
def catalogNode (st : SupState) (resultMsgs : List String) (now : Nat) : Fragment :=
  { messages := resultMsgs.map (fun c => annotateMsg c "assistant" (some "catalog") now),
    userId := some st.userId, conversationId := some st.conversationId,
    workflowContext := jsOf st.workflowContext, dealData := jsOf st.dealData,
    pendingProduct := jsOf st.pendingProduct, cartData := jsOf st.cartData,
    plannerRecommendation := jsOf st.plannerRecommendation, next := some ENDtok }

/-- The payment node adapter (supervisor.ts paymentNode): annotate the
reply messages and terminate. The returned object names every state field
except plannerRecommendation, which it leaves out. -/
def paymentNode (st : SupState) (resultMsgs : List String) (now : Nat) : Fragment :=
  { messages := resultMsgs.map (fun c => annotateMsg c "assistant" (some "payment") now),
    userId := some st.userId, conversationId := some st.conversationId,
    workflowContext := jsOf st.workflowContext, dealData := jsOf st.dealData,
    pendingProduct := jsOf st.pendingProduct, cartData := jsOf st.cartData,
    next := some ENDtok }

/-- Outcome of the external push-notification delivery call: the promise
threw, or it returned an ok flag together with result.status. -/
inductive PushOutcome where
  | threw : PushOutcome
  | returned : Bool → Option Nat → PushOutcome
deriving Repr, DecidableEq

/-- The notification agent node (notificationAgent.ts): consume
notificationData, attempt delivery, clear notificationData and terminate
on every branch. -/
def notificationAgentNode (st : SupState) (push : PushOutcome) (now : Nat) : Fragment :=
  match st.notificationData with
  | none =>
    { messages := [annotateMsg "No notification data to process." "assistant"
        (some "notification_agent") now],
      userId := some st.userId, conversationId := some st.conversationId,
      notificationData := JsVal.null, next := some ENDtok }
  | some _ =>
    match push with
    | PushOutcome.threw =>
      { messages := [annotateMsg "There was an issue sending the notification, but your order was completed successfully!"
          "assistant" (some "notification_agent") now],
        userId := some st.userId, conversationId := some st.conversationId,
        notificationData := JsVal.null, next := some ENDtok }
    | PushOutcome.returned ok status =>
      if ok && status == some 1 then
        { messages := [annotateMsg "Notification sent successfully! You should receive a push notification shortly."
            "assistant" (some "notification_agent") now],
          userId := some st.userId, conversationId := some st.conversationId,
          notificationData := JsVal.null, next := some ENDtok }
      else
        { messages := [annotateMsg "Failed to send notification. Your order was completed successfully though!"
            "assistant" (some "notification_agent") now],
          userId := some st.userId, conversationId := some st.conversationId,
          notificationData := JsVal.null, next := some ENDtok }

/-- The raw planner plan object as parsed from the oracle text
(planner.ts). A none field is an absent or non-string(non-number) key;
stringified stands for JSON.stringify of the raw object, used only for
embedded fallback text. -/
structure PlanInput where
  action : Option String := none
  task : Option String := none
  confidence : Option ℚ := none
  reasoning : Option String := none
  autoApplyIntent : Option Bool := none
  stringified : String := ""
deriving Repr, DecidableEq

/-- A parsed JSON value as seen by the planner: null (and, collapsed with
it, the other falsy primitives 0, "" and false, which take the same
replaced-by-fallback path), a truthy non-object primitive carrying the
text the fallback would embed, or an object. -/
inductive JsonVal where
  | jnull : JsonVal
  | nonObject (stringified : String) : JsonVal
  | obj (p : PlanInput) : JsonVal
deriving Repr, DecidableEq

/-- validateAndNormalizePlan (planner.ts): runtime schema validation and
normalization of a parsed plan, returning the valid flag and the
normalized plan. -/
def validateAndNormalizePlan (input : JsonVal) : Bool × Plan :=
  match input with
  | JsonVal.jnull =>
    (false, { action := "delegate", task := some "null", confidence := 1/2,
              reasoning := "Invalid planner output format" })
  | JsonVal.nonObject s =>
    (false, { action := "delegate", task := some (strTake s 1000), confidence := 1/2,
              reasoning := "Invalid planner output format" })
  | JsonVal.obj p =>
    let invalidAction : Bool × Plan :=
      (false, { action := "delegate",
                task := some (strTake (match p.task with
                  | some t => if t ≠ "" then t else p.stringified
                  | none => p.stringified) 1000),
                confidence := 1/2,
                reasoning := "Planner returned invalid or missing action" })
    match p.action.map lowerStr with
    | none => invalidAction
    | some a =>
      if a = "direct_response" ∨ a = "delegate" then
        let normalized : Plan :=
          { action := a,
            task := p.task,
            confidence := (match p.confidence with
              | some c => max 0 (min 1 c)
              | none => 1/2),
            reasoning := p.reasoning.getD "",
            autoApplyIntent := p.autoApplyIntent.getD false }
        if normalized.action = "direct_response" ∧ jsFalsyStr normalized.task ∧
           normalized.reasoning = "" then
          (false, { normalized with
                    action := "delegate",
                    confidence := min normalized.confidence (6/10),
                    reasoning := "Converted to delegate because direct_response lacked content" })
        else if normalized.confidence < 7/10 ∧ normalized.action = "direct_response" then
          (true, { normalized with
                   action := "delegate",
                   reasoning := "Low confidence classification - delegating for safety. Original: " ++
                     normalized.reasoning })
        else (true, normalized)
      else invalidAction

/-- Outcome of invoking the planner oracle: the call threw, or it produced
a text reply. -/
inductive PlannerOracleOutcome where
  | invokeError (message : String) : PlannerOracleOutcome
  | ok (text : String) : PlannerOracleOutcome
deriving Repr, DecidableEq

/-- Outcome of the built-in JSON.parse on the brace-extracted oracle text
(external collaborator): the parse threw, or it produced a value. -/
inductive ParseOutcome where
  | failed : ParseOutcome
  | parsed (v : JsonVal) : ParseOutcome
deriving Repr, DecidableEq

/-- The recommendation the planner node attaches to the turn (planner.ts):
the invoke-error fallback is returned directly; otherwise the parsed plan
(or the catch fallback on a parse failure, or the no-plan fallback on a
falsy parse result) is mutated by the three pre-validation normalization
lines and then passed through validateAndNormalizePlan. -/
def plannerFinalPlan (outcome : PlannerOracleOutcome) (parse : ParseOutcome) : Plan :=
  match outcome with
  | PlannerOracleOutcome.invokeError m =>
    { action := "delegate", confidence := 1/2,
      reasoning := "LLM invocation error: " ++ m }
  | PlannerOracleOutcome.ok text =>
    let plan : JsonVal :=
      match parse with
      | ParseOutcome.failed =>
        JsonVal.obj { action := some "delegate", task := some (strTake text 1000),
                      confidence := some (1/2),
                      reasoning := some "Could not parse JSON plan from planner LLM; delegating for safety." }
      | ParseOutcome.parsed v => v
    let plan1 : JsonVal :=
      match plan with
      | JsonVal.jnull =>
        JsonVal.obj { action := some "delegate", task := some (strTake text 1000),
                      confidence := some (1/2),
                      reasoning := some "Planner returned no plan; delegating for safety." }
      | v => v
    let plan2 : JsonVal :=
      match plan1 with
      | JsonVal.obj p =>
        JsonVal.obj { p with
          confidence := some (max 0 (min 1 (match p.confidence with
            | some c => if c = 0 then 1/2 else c
            | none => 1/2))),
          action := some (jsOrStr p.action "delegate"),
          reasoning := some (p.reasoning.getD "") }
      | v => v
    (validateAndNormalizePlan plan2).2

theorem takeLast_length_le (n : Nat) (l : List α) : (takeLast n l).length ≤ n := by
  simp only [takeLast, List.length_drop]
  omega

theorem takeLast_sublist (n : Nat) (l : List α) : (takeLast n l).Sublist l := by
  simpa [takeLast] using (List.drop_suffix (l.length - n) l).sublist

theorem mem_takeLast {n : Nat} {l : List α} {a : α} (h : a ∈ takeLast n l) : a ∈ l :=
  (takeLast_sublist n l).mem h

/-- C6: for every pair of old and new message lists, the messages reducer
outputs at most 10 permanent messages followed by at most 5 ephemeral
messages, each group an order-preserving selection (sublist) of the
concatenated old-plus-new input. -/
theorem messagesReducer_cap_and_order (x y : List Msg) :
    ∃ p e, messagesReducer x y = p ++ e ∧
      p.length ≤ 10 ∧ e.length ≤ 5 ∧
      (∀ m ∈ p, isEphemeral m = false) ∧
      (∀ m ∈ e, isEphemeral m = true) ∧
      p.Sublist (x ++ y) ∧ e.Sublist (x ++ y) := by
  refine ⟨takeLast 10 ((x ++ y).filter (fun m => !(isEphemeral m))),
          takeLast 5 ((x ++ y).filter (fun m => isEphemeral m)),
          rfl, takeLast_length_le _ _, takeLast_length_le _ _, ?_, ?_, ?_, ?_⟩
  · intro m hm
    have := (List.mem_filter.mp (mem_takeLast hm)).2
    simpa using this
  · intro m hm
    exact (List.mem_filter.mp (mem_takeLast hm)).2
  · exact (takeLast_sublist _ _).trans (List.filter_sublist _)
  · exact (takeLast_sublist _ _).trans (List.filter_sublist _)

/-- Concrete deals-node input for the non-totality claim: a pending
product, no workflow context, and a plain price listing as the reply. -/
def priceQueryState : SupState :=
  { messages := [{ content := "what is the price of apples", role := "user", timestamp := 1 }],
    userId := "u1", conversationId := "c1",
    pendingProduct := some { product := "apples" } }

/-- C10: the deals-node reply interpretation is not total. With a pending
product, no workflow context, a reply that is a plain price listing (no
confirmation phrase, no no-deals phrase) and no complex-workflow keywords
in the outgoing message, no branch returns: the node produces no state
fragment. -/
theorem dealsNode_not_total :
    dealsNode priceQueryState none [] (some "Apples cost 2 dollars each.") 7 = none := by
  decide

/-- Concrete deals-node input whose reply interpretation takes the
deal-found-without-confirmation branch: a conditional add-to-cart request
(complex-workflow keywords), a reply announcing a deal without
confirmation wording, and no auto-apply planner intent. -/
def conditionalDealState : SupState :=
  { messages := [{ content := "if there is a deal on apples add them to my cart", role := "user",
                   timestamp := 1 }],
    userId := "u1", conversationId := "c1",
    pendingProduct := some { product := "apples", quantity := some 2 } }

/-- C1 counterexample: the deals node can return next = cart_and_checkout,
the name of another specialist node, so the hub-and-spoke claim fails as
stated. -/
theorem dealsNode_routes_directly_to_cart :
    (dealsNode conditionalDealState none ["There is a 10 percent deal on apples today."]
      (some "There is a 10 percent deal on apples today.") 7).map Fragment.next =
    some (some "cart_and_checkout") := by
  decide

/-- C1 amended: the catalog, payment, notification and cart-and-checkout
nodes return next = supervisor or next = END on every branch; the deals
node does so on every fragment-returning branch except its
deal-found-without-confirmation branch, where it returns
cart_and_checkout directly (and one branch returns no fragment at all). -/
theorem specialist_nodes_next_targets :
    (∀ (st : SupState) (rs : List String) (now : Nat),
      (catalogNode st rs now).next = some ENDtok) ∧
    (∀ (st : SupState) (rs : List String) (now : Nat),
      (paymentNode st rs now).next = some ENDtok) ∧
    (∀ (st : SupState) (push : PushOutcome) (now : Nat),
      (notificationAgentNode st push now).next = some ENDtok) ∧
    (∀ (st : SupState) (rs : List String) (cs : String)
      (structured : Option CheckoutResult) (now : Nat),
      (cartAndCheckoutNode st rs cs structured now).next = some "supervisor" ∨
      (cartAndCheckoutNode st rs cs structured now).next = some ENDtok) ∧
    (∀ (st : SupState) (ex : Option ProductInfo) (rs : List String)
      (rc : Option String) (now : Nat),
      (dealsNode st ex rs rc now).elim True (fun f =>
        f.next = some "supervisor" ∨ f.next = some ENDtok ∨
        f.next = some "cart_and_checkout")) := by
  refine ⟨fun st rs now => rfl, fun st rs now => rfl, ?_, ?_, ?_⟩
  · intro st push now
    unfold notificationAgentNode
    repeat' split
    all_goals rfl
  · intro st rs cs structured now
    simp only [cartAndCheckoutNode]
    repeat' split
    all_goals first | exact Or.inl rfl | exact Or.inr rfl
  · intro st ex rs rc now
    simp only [dealsNode]
    repeat' split
    all_goals simp [Option.elim]

/-- Concrete state carrying a planner recommendation, for the payment
frame-preservation counterexample. -/
def paymentStateWithPlan : SupState :=
  { userId := "u1", conversationId := "c1",
    plannerRecommendation := some { action := "delegate", confidence := 9/10 } }

/-- C9 counterexample: the payment node fragment does not include the
input plannerRecommendation; its field is left undefined even though the
input state carries a recommendation. -/
theorem paymentNode_drops_planner_recommendation :
    paymentStateWithPlan.plannerRecommendation =
      some { action := "delegate", confidence := 9/10 } ∧
    (paymentNode paymentStateWithPlan [] 3).plannerRecommendation = JsVal.undef := by
  exact ⟨rfl, rfl⟩

/-- C9 amended: every fragment-returning branch of the catalog,
cart-and-checkout and deals adapters includes the input userId,
conversationId and plannerRecommendation unchanged; the payment adapter
includes userId and conversationId but leaves plannerRecommendation out of
its fragment (the reducer then keeps the stored value). -/
theorem adapter_frame_preservation :
    (∀ (st : SupState) (rs : List String) (now : Nat),
      (catalogNode st rs now).userId = some st.userId ∧
      (catalogNode st rs now).conversationId = some st.conversationId ∧
      (catalogNode st rs now).plannerRecommendation = jsOf st.plannerRecommendation) ∧
    (∀ (st : SupState) (rs : List String) (cs : String)
      (structured : Option CheckoutResult) (now : Nat),
      (cartAndCheckoutNode st rs cs structured now).userId = some st.userId ∧
      (cartAndCheckoutNode st rs cs structured now).conversationId = some st.conversationId ∧
      (cartAndCheckoutNode st rs cs structured now).plannerRecommendation =
        jsOf st.plannerRecommendation) ∧
    (∀ (st : SupState) (ex : Option ProductInfo) (rs : List String)
      (rc : Option String) (now : Nat),
      (dealsNode st ex rs rc now).elim True (fun f =>
        f.userId = some st.userId ∧ f.conversationId = some st.conversationId ∧
        f.plannerRecommendation = jsOf st.plannerRecommendation)) ∧
    (∀ (st : SupState) (rs : List String) (now : Nat),
      (paymentNode st rs now).userId = some st.userId ∧
      (paymentNode st rs now).conversationId = some st.conversationId ∧
      (paymentNode st rs now).plannerRecommendation = JsVal.undef) := by
  refine ⟨fun st rs now => ⟨rfl, rfl, rfl⟩, ?_, ?_, fun st rs now => ⟨rfl, rfl, rfl⟩⟩
  · intro st rs cs structured now
    simp only [cartAndCheckoutNode]
    repeat' split
    all_goals exact ⟨rfl, rfl, rfl⟩
  · intro st ex rs rc now
    simp only [dealsNode]
    repeat' split
    all_goals simp [Option.elim]

/-- Concrete supervisor input for the deal-decline claim: the awaiting
confirmation context, a pending product, a declined offer. -/
def declineState : SupState :=
  { messages := [{ content := "no thanks", role := "user", timestamp := 3 }],
    userId := "u1", conversationId := "c1",
    workflowContext := some "awaiting_deal_confirmation",
    dealData := some { pending := some true, type := some "product_deal" },
    pendingProduct := some { product := "bananas", quantity := some 2 } }

/-- C3: on the decline branch the supervisor does terminate the turn, but
its fragment carries workflowContext, dealData and pendingProduct as
undefined rather than null, and the reducers treat undefined as absent:
after the merge all three fields still hold their old values instead of
being cleared, contrary to the claim and to the clearing comments in the
source. -/
theorem supervisor_decline_not_cleared_after_merge :
    (supervisorRoute declineState {} "" none 10).next = some ENDtok ∧
    (supervisorRoute declineState {} "" none 10).workflowContext = JsVal.undef ∧
    (supervisorRoute declineState {} "" none 10).dealData = JsVal.undef ∧
    (supervisorRoute declineState {} "" none 10).pendingProduct = JsVal.undef ∧
    (applyFragment 10 declineState (supervisorRoute declineState {} "" none 10)).workflowContext =
      some "awaiting_deal_confirmation" ∧
    (applyFragment 10 declineState (supervisorRoute declineState {} "" none 10)).dealData =
      declineState.dealData ∧
    (applyFragment 10 declineState (supervisorRoute declineState {} "" none 10)).pendingProduct =
      declineState.pendingProduct := by
  decide

/-- C4: in the awaiting_deal_confirmation context with a pending product,
a message with an affirmative token routes to cart_and_checkout with the
add_to_cart_with_deals context, preserving dealData and pendingProduct. -/
theorem supervisor_affirmative_routes_to_cart
    (st : SupState) (cont : ContinuationAnalysis) (fb : String)
    (ex : Option ProductInfo) (now : Nat) (p : ProductInfo)
    (hwc : st.workflowContext = some "awaiting_deal_confirmation")
    (hp : st.pendingProduct = some p)
    (haff : hasAffirmative (match st.messages.getLast? with
      | some m => m.content
      | none => "") = true) :
    (supervisorRoute st cont fb ex now).next = some "cart_and_checkout" ∧
    (supervisorRoute st cont fb ex now).workflowContext = JsVal.val "add_to_cart_with_deals" ∧
    (supervisorRoute st cont fb ex now).dealData = jsOf st.dealData ∧
    (supervisorRoute st cont fb ex now).pendingProduct = JsVal.val p := by
  unfold supervisorRoute
  simp only [hwc, hp, haff, jsOf]
  simp

/-- Concrete supervisor input for the deal-confirmation claim. -/
def affirmState : SupState :=
  { messages := [{ content := "yes please", role := "user", timestamp := 5 }],
    userId := "u1", conversationId := "c1",
    workflowContext := some "awaiting_deal_confirmation",
    dealData := some { pending := some true },
    pendingProduct := some { product := "bananas", quantity := some 2 } }

theorem supervisor_affirmative_routes_to_cart_witness :
    (supervisorRoute affirmState {} "" none 10).next = some "cart_and_checkout" ∧
    (supervisorRoute affirmState {} "" none 10).workflowContext = JsVal.val "add_to_cart_with_deals" ∧
    (supervisorRoute affirmState {} "" none 10).dealData = jsOf affirmState.dealData ∧
    (supervisorRoute affirmState {} "" none 10).pendingProduct =
      JsVal.val { product := "bananas", quantity := some 2 } :=
  supervisor_affirmative_routes_to_cart affirmState {} "" none 10
    { product := "bananas", quantity := some 2 } rfl rfl (by decide)

/-- Concrete cart-node input for the checkout-success counterexample: the
reply both parses as a structured success and contains a
product-not-recognized phrase, and a pending product is present. -/
def notRecognizedSuccessState : SupState :=
  { userId := "u1", conversationId := "c1", pendingProduct := some { product := "apples" } }

/-- The counterexample reply text (braces written as escapes). -/
def notRecognizedSuccessReply : String :=
  "\x7b\"checkoutStatus\":\"success\",\"orderId\":\"ORD-1\",\"summary\":\"item not found\"\x7d"

/-- C2 counterexample: a reply that parses as checkoutStatus success but
also contains the phrase "item not found" while a pending product is
present takes the product-not-recognized branch instead: the node
terminates (next = END) and clears the workflow context, so the claim as
universally stated fails. -/
theorem cart_checkout_success_preempted :
    (cartAndCheckoutNode notRecognizedSuccessState [] notRecognizedSuccessReply
      (some { checkoutStatus := some "success", orderId := some "ORD-1",
              summary := some "item not found" }) 3).next = some ENDtok ∧
    (cartAndCheckoutNode notRecognizedSuccessState [] notRecognizedSuccessReply
      (some { checkoutStatus := some "success", orderId := some "ORD-1",
              summary := some "item not found" }) 3).workflowContext = JsVal.null := by
  decide

/-- C2 amended: for every reply that parses with checkoutStatus success,
provided the reply does not carry a product-not-recognized phrase while a
pending product is present, the node routes back to the supervisor (never
to notification_agent directly) with workflowContext send_notification,
pendingProduct and cartData cleared to null, and a notificationData whose
orderId is the structured orderId (an empty or missing one collapsing to
null). -/
theorem cart_checkout_success_routes_via_supervisor
    (st : SupState) (rs : List String) (cs : String) (r : CheckoutResult) (now : Nat)
    (hr : r.checkoutStatus = some "success")
    (hnr : ¬(productNotRecognizedB cs ∧ st.pendingProduct.isSome)) :
    (cartAndCheckoutNode st rs cs (some r) now).next = some "supervisor" ∧
    (cartAndCheckoutNode st rs cs (some r) now).workflowContext = JsVal.val "send_notification" ∧
    (cartAndCheckoutNode st rs cs (some r) now).pendingProduct = JsVal.null ∧
    (cartAndCheckoutNode st rs cs (some r) now).cartData = JsVal.null ∧
    (cartAndCheckoutNode st rs cs (some r) now).notificationData = JsVal.val
      { userId := st.userId, conversationId := st.conversationId,
        summary := jsOrStr r.summary cs, cartData := r.items <|> st.cartData,
        orderId := jsOrNull r.orderId,
        total := (match r.total with | some t => if t = 0 then none else some t | none => none),
        timestamp := now } := by
  unfold cartAndCheckoutNode
  simp only [structuredStatusOf, hr, hnr, if_neg, if_false]
  simp

/-- Concrete cart-node input for the checkout-success witness. -/
def checkoutOkState : SupState :=
  { userId := "u1", conversationId := "c1", cartData := some { raw := "cart with 2 apples" },
    dealData := some { applied := some true } }

/-- The clean structured success reply of the witness. -/
def checkoutOkReply : String :=
  "\x7b\"checkoutStatus\":\"success\",\"orderId\":\"ORD-1\"\x7d"

/-- The parsed form of the witness reply. -/
def checkoutOkResult : CheckoutResult :=
  { checkoutStatus := some "success", orderId := some "ORD-1" }

theorem cart_checkout_success_routes_via_supervisor_witness :
    (cartAndCheckoutNode checkoutOkState [] checkoutOkReply (some checkoutOkResult) 3).next =
      some "supervisor" ∧
    (cartAndCheckoutNode checkoutOkState [] checkoutOkReply (some checkoutOkResult) 3).workflowContext =
      JsVal.val "send_notification" ∧
    (cartAndCheckoutNode checkoutOkState [] checkoutOkReply (some checkoutOkResult) 3).pendingProduct =
      JsVal.null ∧
    (cartAndCheckoutNode checkoutOkState [] checkoutOkReply (some checkoutOkResult) 3).cartData =
      JsVal.null ∧
    (cartAndCheckoutNode checkoutOkState [] checkoutOkReply (some checkoutOkResult) 3).notificationData =
      JsVal.val
        { userId := checkoutOkState.userId, conversationId := checkoutOkState.conversationId,
          summary := jsOrStr checkoutOkResult.summary checkoutOkReply,
          cartData := checkoutOkResult.items <|> checkoutOkState.cartData,
          orderId := jsOrNull checkoutOkResult.orderId,
          total := (match checkoutOkResult.total with
            | some t => if t = 0 then none else some t
            | none => none),
          timestamp := 3 } :=
  cart_checkout_success_routes_via_supervisor checkoutOkState [] checkoutOkReply
    checkoutOkResult 3 rfl (by decide)

/-- C5: with dealData.includesCheckout set, the add_to_cart_with_deals
context, a turn that is not itself a checkout request, and a reply
signalling neither structured checkout status, product-not-recognized nor
text-heuristic success, the node chains into checkout: context
add_to_cart_with_checkout, includesCheckout cleared one-shot (other deal
fields kept), pendingProduct null, next supervisor. -/
theorem cart_auto_checkout_chains
    (st : SupState) (rs : List String) (cs : String) (structured : Option CheckoutResult)
    (now : Nat) (d : DealData)
    (hd : st.dealData = some d)
    (hic : d.includesCheckout = some true)
    (hwc : st.workflowContext = some "add_to_cart_with_deals")
    (hreq : cartIsCheckoutReq st = false)
    (hnr : ¬(productNotRecognizedB cs ∧ st.pendingProduct.isSome))
    (hss : structuredStatusOf structured = none)
    (hts : textCheckoutSuccess cs = false) :
    (cartAndCheckoutNode st rs cs structured now).workflowContext =
      JsVal.val "add_to_cart_with_checkout" ∧
    (cartAndCheckoutNode st rs cs structured now).dealData =
      JsVal.val { d with includesCheckout := some false } ∧
    (cartAndCheckoutNode st rs cs structured now).pendingProduct = JsVal.null ∧
    (cartAndCheckoutNode st rs cs structured now).next = some "supervisor" := by
  unfold cartAndCheckoutNode
  simp only [hd, hic, hwc, hreq, hnr, hss, hts, if_neg, if_false]
  simp

/-- Concrete cart-node input for the auto-checkout witness: a complex
request whose checkout wish was flagged in dealData (via then/proceed, no
checkout keyword), after a successful cart add. -/
def autoCheckoutState : SupState :=
  { messages := [{ content := "if there is a deal on apples, add them to cart and then proceed",
                   role := "user", timestamp := 1 }],
    userId := "u1", conversationId := "c1",
    workflowContext := some "add_to_cart_with_deals",
    dealData := some { applied := some true, includesCheckout := some true,
                       workflowType := some "deals_to_cart_to_checkout" },
    pendingProduct := some { product := "apples" } }

theorem cart_auto_checkout_chains_witness :
    (cartAndCheckoutNode autoCheckoutState [] "Added 2 apples to your cart." none 9).workflowContext =
      JsVal.val "add_to_cart_with_checkout" ∧
    (cartAndCheckoutNode autoCheckoutState [] "Added 2 apples to your cart." none 9).dealData =
      JsVal.val { applied := some true, includesCheckout := some false,
                  workflowType := some "deals_to_cart_to_checkout" } ∧
    (cartAndCheckoutNode autoCheckoutState [] "Added 2 apples to your cart." none 9).pendingProduct =
      JsVal.null ∧
    (cartAndCheckoutNode autoCheckoutState [] "Added 2 apples to your cart." none 9).next =
      some "supervisor" :=
  cart_auto_checkout_chains autoCheckoutState [] "Added 2 apples to your cart." none 9
    { applied := some true, includesCheckout := some true,
      workflowType := some "deals_to_cart_to_checkout" }
    rfl rfl rfl (by decide) (by decide) rfl rfl

/-- C7: a parsed plan with action direct_response and confidence below 0.7
is demoted to delegate by validateAndNormalizePlan, and when the given
confidence is at most 0.6 the normalized confidence stays at most 0.6. -/
theorem planner_demotes_low_confidence_direct_response
    (p : PlanInput) (c : ℚ)
    (ha : p.action = some "direct_response")
    (hc : p.confidence = some c)
    (hlt : c < 7/10) :
    (validateAndNormalizePlan (JsonVal.obj p)).2.action = "delegate" ∧
    (c ≤ 6/10 → (validateAndNormalizePlan (JsonVal.obj p)).2.confidence ≤ 6/10) := by
  have hl : lowerStr "direct_response" = "direct_response" := by decide
  have hclamp : max 0 (min 1 c) < 7/10 := by
    rcases le_or_lt (min 1 c) 0 with h | h
    · have : max 0 (min 1 c) = 0 := max_eq_left h
      rw [this]; norm_num
    · have h1 : min 1 c < 7/10 := lt_of_le_of_lt (min_le_right 1 c) hlt
      have : max 0 (min 1 c) = min 1 c := max_eq_right h.le
      rw [this]; exact h1
  have hle : ∀ hc6 : c ≤ 6/10, max 0 (min 1 c) ≤ 6/10 := by
    intro hc6
    exact max_le (by norm_num) (le_trans (min_le_right 1 c) hc6)
  unfold validateAndNormalizePlan
  simp only [ha, hc, Option.map_some', hl, true_or, if_true, true_and, and_true]
  by_cases hlack : jsFalsyStr p.task = true ∧ p.reasoning.getD "" = ""
  · rw [if_pos hlack]
    exact ⟨rfl, fun _ => min_le_right _ _⟩
  · rw [if_neg hlack, if_pos hclamp]
    exact ⟨rfl, hle⟩

theorem planner_demotes_low_confidence_direct_response_witness :
    (validateAndNormalizePlan (JsonVal.obj
      { action := some "direct_response", task := some "hi",
        confidence := some (1/2) })).2.action = "delegate" ∧
    (validateAndNormalizePlan (JsonVal.obj
      { action := some "direct_response", task := some "hi",
        confidence := some (1/2) })).2.confidence ≤ 6/10 :=
  ⟨(planner_demotes_low_confidence_direct_response
      { action := some "direct_response", task := some "hi", confidence := some (1/2) }
      (1/2) rfl rfl (by norm_num)).1,
   (planner_demotes_low_confidence_direct_response
      { action := some "direct_response", task := some "hi", confidence := some (1/2) }
      (1/2) rfl rfl (by norm_num)).2 (by norm_num)⟩

/-- C8: both planner failure modes degrade to a recommendation with action
delegate and confidence 0.5: an oracle invocation error is answered by the
direct fallback, and a JSON parse failure by the catch fallback passed
through normalization. The planner never propagates the error. -/
theorem planner_failure_degrades_to_delegate (m text : String) (parse : ParseOutcome) :
    ((plannerFinalPlan (PlannerOracleOutcome.invokeError m) parse).action = "delegate" ∧
     (plannerFinalPlan (PlannerOracleOutcome.invokeError m) parse).confidence = 1/2) ∧
    ((plannerFinalPlan (PlannerOracleOutcome.ok text) ParseOutcome.failed).action = "delegate" ∧
     (plannerFinalPlan (PlannerOracleOutcome.ok text) ParseOutcome.failed).confidence = 1/2) := by
  refine ⟨⟨rfl, rfl⟩, ?_⟩
  have hld : lowerStr "delegate" = "delegate" := by decide
  simp [plannerFinalPlan, validateAndNormalizePlan, jsOrStr, hld, min_def, max_def]
  norm_num

end Shop
